import Mathlib

/-!
Shallow embedding of `src/script.py` (class `PageSpeedReporter`), a PageSpeed
Insights API client and terminal reporter.

Modelling conventions:
* JSON numbers are modelled as rationals (`ℚ`); Python `round` is modelled as
  exact round-half-to-even (`pyRound`).
* A JSON object field that may be missing is an `Option`; a Python dict with
  dynamic keys (the `audits` object) is an association list preserving
  insertion order, with first-match lookup (`dictLookup`).
* Python code that may raise is embedded in `Except String`; the message is
  the `str(e)` text the `except` handler would print.
* The object state (`self.api_key`, `self.console`) is passed explicitly as
  `ReporterState`; printing appends to `consoleLines`.
* Name resolution at the `requests.get` call site is modelled by a list of
  module-level global names: if `"requests"` is absent, the call raises
  `NameError`, which the catch-all converts to an error line and `None`.
-/

/-- Exact round-half-to-even, the behaviour of Python `round` on an exact
value (used on `score * 100` at line 33 of the source). -/
def pyRound (q : ℚ) : ℤ :=
  let f : ℤ := q.floor
  if q - (f : ℚ) < 1 / 2 then f
  else if 1 / 2 < q - (f : ℚ) then f + 1
  else if f % 2 = 0 then f else f + 1

/-- Truthiness-based Python `or` for a string left operand: a non-empty
string short-circuits, an empty string yields the right operand. -/
def pyOrStr (a : String) (b : Option String) : Option String :=
  if a = "" then b else a

/-- One entry of the `lighthouseResult.audits` object.  Every field the
script reads is optional at the JSON level; reading a missing field with
`[...]` raises `KeyError`, reading with `.get` yields the default. -/
structure Audit where
  score : Option ℚ
  numericValue : Option ℚ
  displayValue : Option String
  title : Option String
  description : Option String
deriving DecidableEq, Repr

/-- `lighthouseResult.categories.performance` as the script reads it. -/
structure PerformanceCategory where
  score : Option ℚ
deriving DecidableEq, Repr

/-- `lighthouseResult.categories` as the script reads it. -/
structure Categories where
  performance : Option PerformanceCategory
deriving DecidableEq, Repr

/-- The `lighthouseResult` object of the API response. -/
structure LighthouseResult where
  audits : Option (List (String × Audit))
  categories : Option Categories
deriving DecidableEq, Repr

/-- The parsed JSON body of a successful API response. -/
structure ResponseData where
  lighthouseResult : Option LighthouseResult
deriving DecidableEq, Repr

/-- The value record `_get_metric` builds (lines 50-55). -/
structure MetricValue where
  score : ℚ
  value : ℚ
  displayValue : String
deriving DecidableEq, Repr

/-- The opportunity record `_get_opportunities` builds (lines 70-76). -/
structure Opportunity where
  title : String
  description : String
  score : ℚ
  numericValue : ℚ
  displayValue : String
deriving DecidableEq, Repr

/-- The result dict `analyze_url` returns on success (lines 30-43); the
`metrics` dict is an insertion-ordered association list. -/
structure AnalysisResult where
  url : String
  strategy : String
  score : ℤ
  metrics : List (String × MetricValue)
  opportunities : List Opportunity
deriving DecidableEq, Repr

/-- The mutable state of a `PageSpeedReporter` instance: the credential
stored by `__init__` and the lines printed to `self.console`. -/
structure ReporterState where
  api_key : Option String
  consoleLines : List String
deriving DecidableEq, Repr

/-- Line 11: `self.api_key = 'API_KEY_HERE' or os.getenv('PAGESPEED_API_KEY')`.
The constructor parameter `api_key` (line 10) is bound but never read. -/
def init_api_key (api_key : Option String) (env_PAGESPEED_API_KEY : Option String) :
    Option String :=
  pyOrStr "API_KEY_HERE" env_PAGESPEED_API_KEY

/-- `PageSpeedReporter.__init__` (lines 10-12): stores the resolved
credential and a fresh console. -/
def PageSpeedReporter_init (api_key : Option String)
    (env_PAGESPEED_API_KEY : Option String) : ReporterState :=
  { api_key := init_api_key api_key env_PAGESPEED_API_KEY, consoleLines := [] }

/-- First-match lookup in an insertion-ordered dict, as Python `d[k]` /
`k in d` see it. -/
def dictLookup : List (String × Audit) → String → Option Audit
  | [], _ => none
  | (k2, a) :: rest, k => if k2 = k then some a else dictLookup rest k

/-- Python `d[k]`: the value when the key is present, `KeyError` otherwise
(whose `str` is the quoted key). -/
def req {α : Type} (o : Option α) (k : String) : Except String α :=
  match o with
  | some a => Except.ok a
  | none => Except.error ("\x27" ++ k ++ "\x27")

/-- `_get_metric` (lines 50-55): `score` and `displayValue` are read with
`[...]` (may raise `KeyError`), `numericValue` is guarded by a membership
test and divided by 1000, defaulting to 0. -/
def get_metric (audit : Audit) : Except String MetricValue :=
  (req audit.score "score").bind fun s =>
  let v : ℚ := match audit.numericValue with
    | some n => n / 1000
    | none => 0
  (req audit.displayValue "displayValue").map fun d =>
  { score := s, value := v, displayValue := d }

/-- The fixed allow-list of opportunity identifiers (lines 58-64). -/
def opportunity_keys : List String :=
  ["render-blocking-resources", "unused-css-rules", "unused-javascript",
   "modern-image-formats", "offscreen-images"]

/-- The body of the loop in `_get_opportunities` (lines 70-76): `title`,
`description` and `score` are read with `[...]`, the other two with `.get`
defaults. -/
def get_opportunity (a : Audit) : Except String Opportunity :=
  (req a.title "title").bind fun t =>
  (req a.description "description").bind fun d =>
  (req a.score "score").map fun s =>
  { title := t, description := d, score := s,
    numericValue := a.numericValue.getD 0,
    displayValue := a.displayValue.getD "" }

/-- The loop of `_get_opportunities` over a key list: keys absent from
`audits` are skipped, present ones are extracted in key-list order. -/
def get_opportunities_aux (audits : List (String × Audit)) :
    List String → Except String (List Opportunity)
  | [] => Except.ok []
  | k :: ks =>
    match dictLookup audits k with
    | none => get_opportunities_aux audits ks
    | some a =>
      (get_opportunity a).bind fun o =>
      (get_opportunities_aux audits ks).map fun os => o :: os

/-- `_get_opportunities` (lines 57-77). -/
def get_opportunities (audits : List (String × Audit)) :
    Except String (List Opportunity) :=
  get_opportunities_aux audits opportunity_keys

/-- `get_score_color` (lines 79-84), on the numeric score it is called
with (an integer panel score or a metric/opportunity score times 100). -/
def get_score_color (score : ℚ) : String :=
  if score ≥ 90 then "green"
  else if score ≥ 50 then "yellow"
  else "red"

/-- The display names of the six metric rows (lines 35-40), in source order. -/
def metric_names : List String :=
  ["First Contentful Paint", "Speed Index", "Largest Contentful Paint",
   "Time to Interactive", "Total Blocking Time", "Cumulative Layout Shift"]

/-- The audits keys of the six metric rows (lines 35-40), in source order. -/
def metric_keys : List String :=
  ["first-contentful-paint", "speed-index", "largest-contentful-paint",
   "interactive", "total-blocking-time", "cumulative-layout-shift"]

/-- The `try` body of `analyze_url` (lines 27-44) after a successful HTTP
round-trip, in Python evaluation order: the `audits` and `categories`
lookups (lines 27-28), then the dict literal fields `score`, the six
metrics, and `opportunities` (lines 30-43).  Any `KeyError` aborts the
whole body. -/
def analyze_body (data : ResponseData) (url strategy : String) :
    Except String AnalysisResult :=
  (req data.lighthouseResult "lighthouseResult").bind fun lr =>
  (req lr.audits "audits").bind fun audits =>
  (req lr.categories "categories").bind fun categories =>
  (req categories.performance "performance").bind fun performance =>
  (req performance.score "score").bind fun s =>
  (req (dictLookup audits "first-contentful-paint") "first-contentful-paint").bind fun a1 =>
  (get_metric a1).bind fun m1 =>
  (req (dictLookup audits "speed-index") "speed-index").bind fun a2 =>
  (get_metric a2).bind fun m2 =>
  (req (dictLookup audits "largest-contentful-paint") "largest-contentful-paint").bind fun a3 =>
  (get_metric a3).bind fun m3 =>
  (req (dictLookup audits "interactive") "interactive").bind fun a4 =>
  (get_metric a4).bind fun m4 =>
  (req (dictLookup audits "total-blocking-time") "total-blocking-time").bind fun a5 =>
  (get_metric a5).bind fun m5 =>
  (req (dictLookup audits "cumulative-layout-shift") "cumulative-layout-shift").bind fun a6 =>
  (get_metric a6).bind fun m6 =>
  (get_opportunities audits).map fun opps =>
  { url := url, strategy := strategy, score := pyRound (s * 100),
    metrics :=
      [("First Contentful Paint", m1), ("Speed Index", m2),
       ("Largest Contentful Paint", m3), ("Time to Interactive", m4),
       ("Total Blocking Time", m5), ("Cumulative Layout Shift", m6)],
    opportunities := opps }

/-- The field path `lighthouseResult.categories.performance.score` of a
response body, as an observation for stating theorems. -/
def perf_score_field (data : ResponseData) : Option ℚ :=
  match data.lighthouseResult with
  | none => none
  | some lr =>
    match lr.categories with
    | none => none
    | some c =>
      match c.performance with
      | none => none
      | some p => p.score

/-- Outcome of the HTTP round-trip `requests.get` / `raise_for_status` /
`.json()` (lines 23-25), abstracting the network: either `requests.get`
itself raises (network/transport error), or `raise_for_status` raises on a
non-success status (or `.json()` fails to parse), or a parsed body is
available.  The carried string is the `str(e)` text of the raised
exception. -/
inductive FetchOutcome where
  | networkError (msg : String)
  | httpError (msg : String)
  | success (data : ResponseData)

/-- The error line printed by the `except` handler (line 47). -/
def errorLine (url strategy msg : String) : String :=
  "[red]Error analyzing " ++ url ++ " (" ++ strategy ++ "): " ++ msg ++ "[/red]"

/-- The module-level global names bound by lines 1-7 and the class
statement of `src/script.py`.  `requests` is not among them (and is not a
Python builtin), so evaluating the name `requests` at line 23 raises
`NameError`. -/
def script_globals : List String :=
  ["ThreadPoolExecutor", "Console", "Panel", "box", "Table", "Progress",
   "os", "PageSpeedReporter"]

/-- `str(e)` of the `NameError` raised when the name `requests` is not
defined. -/
def nameErrorMsg : String := "name \x27requests\x27 is not defined"

/-- The `try` block of `analyze_url` (lines 22-44).  `globals` is the set
of module-level names visible at the call site of line 23 (if `requests`
is not among them, evaluating the call raises `NameError`); `fetch` maps
the query parameters `url`, `key`, `strategy` (lines 16-20) to the
outcome of the HTTP round-trip. -/
def try_analyze (globals : List String)
    (fetch : String → Option String → String → FetchOutcome)
    (key : Option String) (url strategy : String) :
    Except String AnalysisResult :=
  if "requests" ∈ globals then
    match fetch url key strategy with
    | FetchOutcome.networkError msg => Except.error msg
    | FetchOutcome.httpError msg => Except.error msg
    | FetchOutcome.success data => analyze_body data url strategy
  else Except.error nameErrorMsg

/-- `analyze_url` (lines 14-48): the `try` block, with the catch-all
`except` (lines 46-48) turning any raised exception into one printed
error line and the return value `None`. -/
def analyze_url (globals : List String)
    (fetch : String → Option String → String → FetchOutcome)
    (st : ReporterState) (url strategy : String) :
    Option AnalysisResult × ReporterState :=
  match try_analyze globals fetch st.api_key url strategy with
  | Except.ok result => (some result, st)
  | Except.error msg =>
    (none, { st with consoleLines := st.consoleLines ++ [errorLine url strategy msg] })

/-- `analyze_urls` (lines 115-127): per URL a desktop then a mobile
analysis, and `display_report` invoked exactly when both returned a
result.  The returned list records the `display_report` invocations with
their arguments, in order. -/
def analyze_urls (globals : List String)
    (fetch : String → Option String → String → FetchOutcome) :
    ReporterState → List String →
      ReporterState × List (String × AnalysisResult × AnalysisResult)
  | st, [] => (st, [])
  | st, url :: rest =>
    let dr := analyze_url globals fetch st url "desktop"
    let mr := analyze_url globals fetch dr.2 url "mobile"
    let tail := analyze_urls globals fetch mr.2 rest
    match dr.1, mr.1 with
    | some d, some m => (tail.1, (url, d, m) :: tail.2)
    | _, _ => tail

/-- The `savings` string of line 108: the `" • Potential savings: ..."`
suffix when `displayValue` is truthy (non-empty), else empty. -/
def savings_text (opp : Opportunity) : String :=
  if opp.displayValue = "" then "" else " • Potential savings: " ++ opp.displayValue

/-- The row text added for one opportunity (lines 109-112). -/
def opp_row (opp : Opportunity) : String :=
  "[" ++ get_score_color (opp.score * 100) ++ "]● " ++ opp.title ++ "[/"
    ++ get_score_color (opp.score * 100) ++ "]" ++ savings_text opp
    ++ "\n  " ++ opp.description

/-- The loop of `display_opportunities` (lines 105-112): the rows of the
rendered table, in order; an opportunity contributes a row only when its
score is strictly below 1. -/
def display_opportunities : List Opportunity → List String
  | [] => []
  | opp :: rest =>
    if opp.score < 1 then opp_row opp :: display_opportunities rest
    else display_opportunities rest

/-- The total extraction an audit's opportunity record amounts to once
`_get_opportunities` has succeeded on it (every `[...]`-read field was
present, so the defaults are never taken). -/
def oppOfAudit (a : Audit) : Opportunity :=
  { title := a.title.getD "", description := a.description.getD "",
    score := a.score.getD 0, numericValue := a.numericValue.getD 0,
    displayValue := a.displayValue.getD "" }

/-- Fixture: a fully populated metric audit. -/
def exMetricAudit : Audit :=
  { score := some (9 / 10), numericValue := some 1200,
    displayValue := some "1.2 s", title := none, description := none }

/-- Fixture: a fully populated opportunity audit. -/
def exOppAudit : Audit :=
  { score := some (2 / 5), numericValue := some 153600,
    displayValue := some "Save 150 KB", title := some "Reduce unused CSS",
    description := some "Reduce unused rules" }

/-- Fixture: an audits object holding the six metric audits and one
allow-listed opportunity. -/
def exAudits : List (String × Audit) :=
  [("first-contentful-paint", exMetricAudit), ("speed-index", exMetricAudit),
   ("largest-contentful-paint", exMetricAudit), ("interactive", exMetricAudit),
   ("total-blocking-time", exMetricAudit),
   ("cumulative-layout-shift", exMetricAudit), ("unused-css-rules", exOppAudit)]

/-- Fixture: a complete successful response body. -/
def exData : ResponseData :=
  { lighthouseResult := some
      ({ audits := some exAudits,
         categories := some ({ performance := some ({ score := some (19 / 20) } :
           PerformanceCategory) } : Categories) } : LighthouseResult) }

/-- Fixture: the metric value extracted from `exMetricAudit`. -/
def exMetricValue : MetricValue :=
  { score := 9 / 10, value := 1200 / 1000, displayValue := "1.2 s" }

/-- Fixture: the opportunity extracted from `exOppAudit`. -/
def exOpportunity : Opportunity :=
  { title := "Reduce unused CSS", description := "Reduce unused rules",
    score := 2 / 5, numericValue := 153600, displayValue := "Save 150 KB" }

/-- Fixture: the analysis result produced from `exData`. -/
def exResult : AnalysisResult :=
  { url := "https://example.com", strategy := "desktop",
    score := pyRound ((19 / 20 : ℚ) * 100),
    metrics :=
      [("First Contentful Paint", exMetricValue), ("Speed Index", exMetricValue),
       ("Largest Contentful Paint", exMetricValue),
       ("Time to Interactive", exMetricValue),
       ("Total Blocking Time", exMetricValue),
       ("Cumulative Layout Shift", exMetricValue)],
    opportunities := [exOpportunity] }

/-- Fixture: a metric audit whose `score` key is missing. -/
def exNoScoreAudit : Audit :=
  { score := none, numericValue := some 1200, displayValue := some "1.2 s",
    title := none, description := none }

/-- Fixture: a metric audit whose `numericValue` key is missing. -/
def exNoNumericAudit : Audit :=
  { score := some (1 / 2), numericValue := none, displayValue := some "50 ms",
    title := none, description := none }

/-- Fixture: an audits object whose `first-contentful-paint` audit lacks
`score`. -/
def exBadAudits : List (String × Audit) :=
  [("first-contentful-paint", exNoScoreAudit), ("speed-index", exMetricAudit),
   ("largest-contentful-paint", exMetricAudit), ("interactive", exMetricAudit),
   ("total-blocking-time", exMetricAudit),
   ("cumulative-layout-shift", exMetricAudit)]

/-- Fixture: a response body whose `first-contentful-paint` audit lacks
`score`. -/
def exBadData : ResponseData :=
  { lighthouseResult := some
      ({ audits := some exBadAudits,
         categories := some ({ performance := some ({ score := some (19 / 20) } :
           PerformanceCategory) } : Categories) } : LighthouseResult) }

/-- Fixture: `exAudits` with the opportunity entry moved to the front, to
exhibit order-independence of the extracted opportunities. -/
def exAuditsShuffled : List (String × Audit) :=
  [("unused-css-rules", exOppAudit),
   ("cumulative-layout-shift", exMetricAudit),
   ("total-blocking-time", exMetricAudit), ("interactive", exMetricAudit),
   ("largest-contentful-paint", exMetricAudit), ("speed-index", exMetricAudit),
   ("first-contentful-paint", exMetricAudit)]

/-- The `display_report` invocations `analyze_urls` is specified to make:
one per input URL whose desktop and mobile analyses both returned a
result, in input order. -/
def report_calls (globals : List String)
    (fetch : String → Option String → String → FetchOutcome)
    (st : ReporterState) (urls : List String) :
    List (String × AnalysisResult × AnalysisResult) :=
  urls.filterMap fun u =>
    match (analyze_url globals fetch st u "desktop").1,
          (analyze_url globals fetch st u "mobile").1 with
    | some d, some m => some (u, d, m)
    | _, _ => none

theorem req_eq_ok {α : Type} {o : Option α} {k : String} {a : α} :
    req o k = Except.ok a ↔ o = some a := by
  cases o <;> simp [req]

theorem bind_eq_ok {α β : Type} {e : Except String α}
    {f : α → Except String β} {b : β} :
    e.bind f = Except.ok b ↔ ∃ a, e = Except.ok a ∧ f a = Except.ok b := by
  cases e <;> simp [Except.bind]

theorem map_eq_ok {α β : Type} {e : Except String α} {f : α → β} {b : β} :
    Except.map f e = Except.ok b ↔ ∃ a, e = Except.ok a ∧ f a = b := by
  cases e <;> simp [Except.map]

theorem get_metric_fields {audit : Audit} {m : MetricValue}
    (h : get_metric audit = Except.ok m) :
    audit.score = some m.score ∧ audit.displayValue = some m.displayValue := by
  simp only [get_metric, bind_eq_ok, map_eq_ok, req_eq_ok] at h
  obtain ⟨s, hs, d, hd, hm⟩ := h
  subst hm
  exact ⟨hs, hd⟩

theorem get_metric_of_present {audit : Audit} {s : ℚ} {dv : String}
    (hs : audit.score = some s) (hd : audit.displayValue = some dv) :
    get_metric audit = Except.ok
      { score := s,
        value := match audit.numericValue with
          | some n => n / 1000
          | none => 0,
        displayValue := dv } := by
  simp [get_metric, req, hs, hd, Except.bind, Except.map]

theorem get_metric_missing {audit : Audit}
    (h : audit.score = none ∨ audit.displayValue = none) :
    ∃ msg, get_metric audit = Except.error msg := by
  cases hs : audit.score with
  | none => exact ⟨"\x27score\x27", by simp [get_metric, req, hs, Except.bind]⟩
  | some s =>
    rcases h with h | h
    · rw [hs] at h
      cases h
    · exact ⟨"\x27displayValue\x27",
        by simp [get_metric, req, hs, h, Except.bind, Except.map]⟩

theorem get_opportunity_eq_ok {a : Audit} {o : Opportunity}
    (h : get_opportunity a = Except.ok o) : o = oppOfAudit a := by
  simp only [get_opportunity, bind_eq_ok, map_eq_ok, req_eq_ok] at h
  obtain ⟨t, ht, d, hd, s, hs, ho⟩ := h
  subst ho
  simp [oppOfAudit, ht, hd, hs]

theorem get_opportunities_aux_spec (audits : List (String × Audit)) :
    ∀ (ks : List String) (l : List Opportunity),
      get_opportunities_aux audits ks = Except.ok l →
      l = (ks.filterMap fun k => dictLookup audits k).map oppOfAudit
  | [], l, h => by
    simp only [get_opportunities_aux] at h
    cases h
    simp
  | k :: ks, l, h => by
    cases hk : dictLookup audits k with
    | none =>
      rw [get_opportunities_aux, hk] at h
      simpa [hk] using get_opportunities_aux_spec audits ks l h
    | some a =>
      rw [get_opportunities_aux, hk] at h
      rw [bind_eq_ok] at h
      obtain ⟨o, ho, h⟩ := h
      rw [map_eq_ok] at h
      obtain ⟨os, hos, hl⟩ := h
      subst hl
      simp [hk, get_opportunity_eq_ok ho,
        get_opportunities_aux_spec audits ks os hos]

theorem get_opportunities_aux_congr {audits1 audits2 : List (String × Audit)} :
    ∀ ks : List String,
      (∀ k ∈ ks, dictLookup audits1 k = dictLookup audits2 k) →
      get_opportunities_aux audits1 ks = get_opportunities_aux audits2 ks
  | [], _ => rfl
  | k :: ks, h => by
    rw [get_opportunities_aux, get_opportunities_aux,
      h k (List.mem_cons_self k ks),
      get_opportunities_aux_congr ks fun k2 hk2 => h k2 (List.mem_cons_of_mem k hk2)]
theorem analyze_body_eq_ok {data : ResponseData} {url strategy : String}
    {r : AnalysisResult} (h : analyze_body data url strategy = Except.ok r) :
    ∃ lr, data.lighthouseResult = some lr ∧
    ∃ audits, lr.audits = some audits ∧
    ∃ categories, lr.categories = some categories ∧
    ∃ performance, categories.performance = some performance ∧
    ∃ s, performance.score = some s ∧
    ∃ a1, dictLookup audits "first-contentful-paint" = some a1 ∧
    ∃ m1, get_metric a1 = Except.ok m1 ∧
    ∃ a2, dictLookup audits "speed-index" = some a2 ∧
    ∃ m2, get_metric a2 = Except.ok m2 ∧
    ∃ a3, dictLookup audits "largest-contentful-paint" = some a3 ∧
    ∃ m3, get_metric a3 = Except.ok m3 ∧
    ∃ a4, dictLookup audits "interactive" = some a4 ∧
    ∃ m4, get_metric a4 = Except.ok m4 ∧
    ∃ a5, dictLookup audits "total-blocking-time" = some a5 ∧
    ∃ m5, get_metric a5 = Except.ok m5 ∧
    ∃ a6, dictLookup audits "cumulative-layout-shift" = some a6 ∧
    ∃ m6, get_metric a6 = Except.ok m6 ∧
    ∃ opps, get_opportunities audits = Except.ok opps ∧
    r = { url := url, strategy := strategy, score := pyRound (s * 100),
          metrics :=
            [("First Contentful Paint", m1), ("Speed Index", m2),
             ("Largest Contentful Paint", m3), ("Time to Interactive", m4),
             ("Total Blocking Time", m5), ("Cumulative Layout Shift", m6)],
          opportunities := opps } := by
  simp only [analyze_body, bind_eq_ok, map_eq_ok, req_eq_ok] at h
  obtain ⟨lr, hlr, audits, haud, categories, hcat, performance, hperf, s, hs,
    a1, ha1, m1, hm1, a2, ha2, m2, hm2, a3, ha3, m3, hm3, a4, ha4, m4, hm4,
    a5, ha5, m5, hm5, a6, ha6, m6, hm6, opps, hopps, hr⟩ := h
  exact ⟨lr, hlr, audits, haud, categories, hcat, performance, hperf, s, hs,
    a1, ha1, m1, hm1, a2, ha2, m2, hm2, a3, ha3, m3, hm3, a4, ha4, m4, hm4,
    a5, ha5, m5, hm5, a6, ha6, m6, hm6, opps, hopps, hr.symm⟩

theorem analyze_url_api_key (globals : List String)
    (fetch : String → Option String → String → FetchOutcome)
    (st : ReporterState) (url strategy : String) :
    (analyze_url globals fetch st url strategy).2.api_key = st.api_key := by
  cases h : try_analyze globals fetch st.api_key url strategy <;>
    simp [analyze_url, h]

theorem analyze_url_fst_congr (globals : List String)
    (fetch : String → Option String → String → FetchOutcome)
    (url strategy : String) {st st' : ReporterState}
    (h : st.api_key = st'.api_key) :
    (analyze_url globals fetch st url strategy).1 =
      (analyze_url globals fetch st' url strategy).1 := by
  unfold analyze_url
  rw [h]
  cases try_analyze globals fetch st'.api_key url strategy <;> rfl

theorem report_calls_congr (globals : List String)
    (fetch : String → Option String → String → FetchOutcome)
    {st st' : ReporterState} (h : st.api_key = st'.api_key)
    (urls : List String) :
    report_calls globals fetch st urls = report_calls globals fetch st' urls := by
  unfold report_calls
  congr 1
  funext u
  rw [analyze_url_fst_congr globals fetch u "desktop" h,
    analyze_url_fst_congr globals fetch u "mobile" h]

theorem analyze_urls_fst_api_key (globals : List String)
    (fetch : String → Option String → String → FetchOutcome) :
    ∀ (urls : List String) (st : ReporterState),
      (analyze_urls globals fetch st urls).1.api_key = st.api_key
  | [], _ => rfl
  | url :: rest, st => by
    simp only [analyze_urls]
    have IH := analyze_urls_fst_api_key globals fetch rest
      (analyze_url globals fetch
        (analyze_url globals fetch st url "desktop").2 url "mobile").2
    have h2 : (analyze_url globals fetch
        (analyze_url globals fetch st url "desktop").2 url "mobile").2.api_key
        = st.api_key := by
      rw [analyze_url_api_key, analyze_url_api_key]
    cases (analyze_url globals fetch st url "desktop").1 <;>
      cases (analyze_url globals fetch
        (analyze_url globals fetch st url "desktop").2 url "mobile").1 <;>
      simp only [] <;> rw [IH, h2]

theorem analyze_urls_snd_eq_report_calls (globals : List String)
    (fetch : String → Option String → String → FetchOutcome) :
    ∀ (urls : List String) (st : ReporterState),
      (analyze_urls globals fetch st urls).2 = report_calls globals fetch st urls
  | [], _ => rfl
  | url :: rest, st => by
    simp only [analyze_urls]
    have hd : (analyze_url globals fetch st url "desktop").2.api_key = st.api_key :=
      analyze_url_api_key globals fetch st url "desktop"
    have hm : (analyze_url globals fetch
        (analyze_url globals fetch st url "desktop").2 url "mobile").1
        = (analyze_url globals fetch st url "mobile").1 :=
      analyze_url_fst_congr globals fetch url "mobile" hd
    have hm2 : (analyze_url globals fetch
        (analyze_url globals fetch st url "desktop").2 url "mobile").2.api_key
        = st.api_key := by
      rw [analyze_url_api_key, hd]
    have ht : (analyze_urls globals fetch
        (analyze_url globals fetch
          (analyze_url globals fetch st url "desktop").2 url "mobile").2 rest).2
        = report_calls globals fetch st rest := by
      rw [analyze_urls_snd_eq_report_calls globals fetch rest _,
        report_calls_congr globals fetch hm2 rest]
    rw [report_calls, List.filterMap_cons]
    rw [report_calls] at ht
    cases hdr : (analyze_url globals fetch st url "desktop").1 <;>
      cases hmr : (analyze_url globals fetch
        (analyze_url globals fetch st url "desktop").2 url "mobile").1 <;>
      rw [hmr] at hm <;> rw [← hm] <;> simp [ht]

theorem try_analyze_no_requests {globals : List String}
    {fetch : String → Option String → String → FetchOutcome}
    {key : Option String} {url strategy : String}
    (h : "requests" ∉ globals) :
    try_analyze globals fetch key url strategy = Except.error nameErrorMsg := by
  simp [try_analyze, h]

theorem requests_not_in_script_globals : "requests" ∉ script_globals := by
  decide

theorem analyze_url_script_globals_none
    (fetch : String → Option String → String → FetchOutcome)
    (st : ReporterState) (url strategy : String) :
    (analyze_url script_globals fetch st url strategy).1 = none := by
  simp [analyze_url, try_analyze_no_requests requests_not_in_script_globals]

theorem report_calls_script_globals_nil
    (fetch : String → Option String → String → FetchOutcome)
    (st : ReporterState) (urls : List String) :
    report_calls script_globals fetch st urls = [] := by
  unfold report_calls
  rw [List.filterMap_eq_nil_iff]
  intro u _
  rw [analyze_url_script_globals_none]

theorem metric_conflict {audits : List (String × Audit)} {k : String}
    {audit a : Audit} {m : MetricValue}
    (hlook : dictLookup audits k = some audit)
    (ha : dictLookup audits k = some a)
    (hm : get_metric a = Except.ok m)
    (hbad : audit.score = none ∨ audit.displayValue = none) : False := by
  obtain ⟨msg, hmsg⟩ := get_metric_missing hbad
  rw [hlook] at ha
  injection ha with e
  subst e
  rw [hmsg] at hm
  cases hm

/-- C1: evaluation of the code at the failing input.  The claim says a
construction with an explicit `api_key` stores that argument and a
construction without one stores the environment value; line 11 instead
always stores the placeholder literal `API_KEY_HERE`, because the `or`
short-circuits on the truthy literal and the constructor parameter is
never read. -/
theorem C1_credential_always_placeholder :
    (PageSpeedReporter_init (some "explicit-key") (some "env-key")).api_key
        = some "API_KEY_HERE" ∧
    (PageSpeedReporter_init (some "explicit-key") (some "env-key")).api_key
        ≠ some "explicit-key" ∧
    (PageSpeedReporter_init none (some "env-key")).api_key ≠ some "env-key" := by
  refine ⟨rfl, ?_, ?_⟩ <;> decide

/-- C2: with the script's actual module-level globals (no `requests`
import), `analyze_url` returns `None` for every url, strategy, state and
network behaviour, and `analyze_urls` therefore never invokes
`display_report`. -/
theorem C2_analyze_url_always_none :
    ∀ (fetch : String → Option String → String → FetchOutcome)
      (st : ReporterState) (url strategy : String) (urls : List String),
      (analyze_url script_globals fetch st url strategy).1 = none ∧
      (analyze_urls script_globals fetch st urls).2 = [] := by
  intro fetch st url strategy urls
  refine ⟨analyze_url_script_globals_none fetch st url strategy, ?_⟩
  rw [analyze_urls_snd_eq_report_calls, report_calls_script_globals_nil]

/-- C3: on every successful analysis the stored score is `round(s * 100)`
of the source score `s`, and `get_score_color` assigns green iff the score
is at least 90, yellow iff it is at least 50 and below 90, and red iff it
is below 50. -/
theorem C3_score_rounding_and_tiers :
    (∀ (data : ResponseData) (url strategy : String) (r : AnalysisResult) (s : ℚ),
        perf_score_field data = some s →
        analyze_body data url strategy = Except.ok r →
        r.score = pyRound (s * 100)) ∧
    (∀ q : ℚ,
      (get_score_color q = "green" ↔ 90 ≤ q) ∧
      (get_score_color q = "yellow" ↔ 50 ≤ q ∧ q < 90) ∧
      (get_score_color q = "red" ↔ q < 50)) := by
  constructor
  · intro data url strategy r s hperf h
    obtain ⟨lr, hlr, audits, haud, categories, hcat, performance, hperf2, s2, hs2,
      a1, ha1, m1, hm1, a2, ha2, m2, hm2, a3, ha3, m3, hm3, a4, ha4, m4, hm4,
      a5, ha5, m5, hm5, a6, ha6, m6, hm6, opps, hopps, hr⟩ := analyze_body_eq_ok h
    simp only [perf_score_field, hlr, hcat, hperf2, hs2, Option.some.injEq] at hperf
    subst hperf
    rw [hr]
  · intro q
    unfold get_score_color
    split_ifs with h1 h2
    · refine ⟨by simpa using h1, ?_, ?_⟩
      · simp only [String.reduceEq, false_iff, not_and, not_lt]
        intro _
        linarith
      · simp only [String.reduceEq, false_iff, not_lt]
        linarith
    · rw [not_le] at h1
      refine ⟨?_, by simpa using ⟨h2, h1⟩, ?_⟩
      · simp only [String.reduceEq, false_iff, not_le]
        exact h1
      · simp only [String.reduceEq, false_iff, not_lt]
        exact h2
    · rw [not_le] at h1 h2
      refine ⟨?_, ?_, by simpa using h2⟩
      · simp only [String.reduceEq, false_iff, not_le]
        linarith
      · simp only [String.reduceEq, false_iff, not_and, not_lt]
        intro h
        linarith

/-- C3 witness: a concrete successful analysis with source score `19/20`,
whose stored score is `round(95)`, and the three tiers at 95, 60 and 30. -/
theorem C3_score_rounding_and_tiers_witness :
    exResult.score = pyRound ((19 / 20 : ℚ) * 100) ∧
    (get_score_color 95 = "green" ↔ 90 ≤ (95 : ℚ)) ∧
    (get_score_color 60 = "yellow" ↔ 50 ≤ (60 : ℚ) ∧ (60 : ℚ) < 90) ∧
    (get_score_color 30 = "red" ↔ (30 : ℚ) < 50) :=
  ⟨C3_score_rounding_and_tiers.1 exData "https://example.com" "desktop"
      exResult (19 / 20) rfl rfl,
   (C3_score_rounding_and_tiers.2 95).1,
   (C3_score_rounding_and_tiers.2 60).2.1,
   (C3_score_rounding_and_tiers.2 30).2.2⟩

/-- C4: a successful opportunity extraction yields exactly the allow-listed
identifiers present in the response, extracted in the allow-list's fixed
order; and the extraction depends only on the lookups of the five
allow-listed keys, so identifiers outside the allow-list and the response
order are irrelevant. -/
theorem C4_opportunities_allowlist :
    (∀ (audits : List (String × Audit)) (l : List Opportunity),
        get_opportunities audits = Except.ok l →
        l = (opportunity_keys.filterMap fun k => dictLookup audits k).map oppOfAudit) ∧
    (∀ audits1 audits2 : List (String × Audit),
        (∀ k ∈ opportunity_keys, dictLookup audits1 k = dictLookup audits2 k) →
        get_opportunities audits1 = get_opportunities audits2) :=
  ⟨fun audits l h => get_opportunities_aux_spec audits opportunity_keys l h,
   fun _ _ h => get_opportunities_aux_congr opportunity_keys h⟩

/-- C4 witness: on `exAudits` (six metric audits plus `unused-css-rules`)
the extraction yields exactly the one allow-listed present opportunity,
and reordering the response leaves the extraction unchanged. -/
theorem C4_opportunities_allowlist_witness :
    [exOpportunity] =
      ((opportunity_keys.filterMap fun k => dictLookup exAudits k).map oppOfAudit) ∧
    get_opportunities exAudits = get_opportunities exAuditsShuffled :=
  ⟨C4_opportunities_allowlist.1 exAudits [exOpportunity] rfl,
   C4_opportunities_allowlist.2 exAudits exAuditsShuffled (by
      intro k hk
      simp only [opportunity_keys] at hk
      fin_cases hk <;> rfl)⟩

/-- C5: the rendered opportunities table has one row per opportunity with
score strictly below 1, in order (a score-1 opportunity is dropped), and a
row consists of the tier-colored bullet and title, the potential-savings
suffix exactly when `displayValue` is non-empty, and the description
beneath. -/
theorem C5_opportunity_rows :
    (∀ opps : List Opportunity,
        display_opportunities opps =
          (opps.filter fun o => o.score < 1).map opp_row) ∧
    (∀ o : Opportunity,
        opp_row o =
          "[" ++ get_score_color (o.score * 100) ++ "]● " ++ o.title ++ "[/"
            ++ get_score_color (o.score * 100) ++ "]"
            ++ (if o.displayValue = "" then ""
                else " • Potential savings: " ++ o.displayValue)
            ++ "\n  " ++ o.description) := by
  constructor
  · intro opps
    induction opps with
    | nil => rfl
    | cons o rest ih =>
      by_cases h : o.score < 1 <;>
        simp [display_opportunities, List.filter_cons, h, ih]
  · intro o
    simp only [opp_row, savings_text]

/-- C6: `_get_metric` carries `score` and `displayValue` through unchanged
and converts `numericValue` from milliseconds to seconds, defaulting to 0
when absent; and every successful analysis has exactly the six metric
entries in the fixed declared order. -/
theorem C6_metric_values_and_order :
    (∀ (audit : Audit) (s : ℚ) (dv : String),
        audit.score = some s → audit.displayValue = some dv →
        get_metric audit = Except.ok
          { score := s,
            value := match audit.numericValue with
              | some n => n / 1000
              | none => 0,
            displayValue := dv }) ∧
    (∀ (data : ResponseData) (url strategy : String) (r : AnalysisResult),
        analyze_body data url strategy = Except.ok r →
        r.metrics.map Prod.fst = metric_names) := by
  constructor
  · exact fun _ _ _ hs hd => get_metric_of_present hs hd
  · intro data url strategy r h
    obtain ⟨lr, hlr, audits, haud, categories, hcat, performance, hperf2, s2, hs2,
      a1, ha1, m1, hm1, a2, ha2, m2, hm2, a3, ha3, m3, hm3, a4, ha4, m4, hm4,
      a5, ha5, m5, hm5, a6, ha6, m6, hm6, opps, hopps, hr⟩ := analyze_body_eq_ok h
    rw [hr]
    rfl

/-- C6 witness: the metric extracted from `exMetricAudit` (numericValue
1200 ms), and the six fixed metric names of the concrete result. -/
theorem C6_metric_values_and_order_witness :
    get_metric exMetricAudit = Except.ok
      { score := 9 / 10,
        value := match exMetricAudit.numericValue with
          | some n => n / 1000
          | none => 0,
        displayValue := "1.2 s" } ∧
    exResult.metrics.map Prod.fst = metric_names :=
  ⟨C6_metric_values_and_order.1 exMetricAudit (9 / 10) "1.2 s" rfl rfl,
   C6_metric_values_and_order.2 exData "https://example.com" "desktop" exResult rfl⟩

/-- C7: whenever `requests` is importable and the call fails — network
error, HTTP-status error, or any body-shape failure — `analyze_url`
appends exactly one error line naming the url, the strategy and the
message, and returns `None`; all failure kinds produce this same
outcome. -/
theorem C7_failure_collapse :
    ∀ (globals : List String)
      (fetch : String → Option String → String → FetchOutcome)
      (st : ReporterState) (url strategy msg : String),
      "requests" ∈ globals →
      (fetch url st.api_key strategy = FetchOutcome.networkError msg ∨
       fetch url st.api_key strategy = FetchOutcome.httpError msg ∨
       ∃ data, fetch url st.api_key strategy = FetchOutcome.success data ∧
         analyze_body data url strategy = Except.error msg) →
      analyze_url globals fetch st url strategy =
        (none,
          { st with consoleLines := st.consoleLines ++ [errorLine url strategy msg] }) := by
  intro globals fetch st url strategy msg hreq h
  have ht : try_analyze globals fetch st.api_key url strategy = Except.error msg := by
    rcases h with h | h | ⟨data, hf, hb⟩
    · simp [try_analyze, hreq, h]
    · simp [try_analyze, hreq, h]
    · simp [try_analyze, hreq, hf, hb]
  simp [analyze_url, ht]

/-- C7 witness: a network failure on a concrete call yields `None` and the
single error line. -/
theorem C7_failure_collapse_witness :
    analyze_url ["requests"] (fun _ _ _ => FetchOutcome.networkError "timeout")
      { api_key := some "k", consoleLines := [] } "https://example.com" "desktop" =
      (none, { api_key := some "k",
               consoleLines := [errorLine "https://example.com" "desktop" "timeout"] }) :=
  C7_failure_collapse ["requests"] (fun _ _ _ => FetchOutcome.networkError "timeout")
    { api_key := some "k", consoleLines := [] } "https://example.com" "desktop" "timeout"
    (List.mem_singleton.mpr rfl) (Or.inl rfl)

/-- C8: for every URL in the input list, `display_report` is invoked
exactly when both the desktop and the mobile analysis returned a result
(`report_calls` is that characterization: a filter over all input URLs, so
a failing URL is skipped and processing continues with the rest). -/
theorem C8_report_iff_both_present :
    ∀ (globals : List String)
      (fetch : String → Option String → String → FetchOutcome)
      (st : ReporterState) (urls : List String),
      (analyze_urls globals fetch st urls).2 = report_calls globals fetch st urls :=
  fun globals fetch st urls => analyze_urls_snd_eq_report_calls globals fetch urls st

/-- C9: the analyzer result is a function of its input and the fetched
response only: running `analyze_url` a second time with identical inputs
(from the state the first run left behind) returns the identical result,
and the stored credential is never mutated. -/
theorem C9_deterministic_no_hidden_state :
    ∀ (globals : List String)
      (fetch : String → Option String → String → FetchOutcome)
      (st : ReporterState) (url strategy : String),
      (analyze_url globals fetch
        (analyze_url globals fetch st url strategy).2 url strategy).1 =
        (analyze_url globals fetch st url strategy).1 ∧
      (analyze_url globals fetch st url strategy).2.api_key = st.api_key :=
  fun globals fetch st url strategy =>
    ⟨analyze_url_fst_congr globals fetch url strategy
        (analyze_url_api_key globals fetch st url strategy),
     analyze_url_api_key globals fetch st url strategy⟩

/-- C10: a metric audit lacking `score` or `displayValue` makes
`_get_metric` raise, while a lacking `numericValue` is tolerated with
value 0; and when such a lacking audit sits at any of the six metric keys
of an otherwise fetched response, `analyze_url` returns `None` for the
whole analysis. -/
theorem C10_metric_fields_not_uniform :
    (∀ audit : Audit,
        audit.score = none ∨ audit.displayValue = none →
        ∃ msg, get_metric audit = Except.error msg) ∧
    (∀ (audit : Audit) (s : ℚ) (dv : String),
        audit.score = some s → audit.displayValue = some dv →
        audit.numericValue = none →
        get_metric audit = Except.ok { score := s, value := 0, displayValue := dv }) ∧
    (∀ (globals : List String)
        (fetch : String → Option String → String → FetchOutcome)
        (st : ReporterState) (url strategy : String) (data : ResponseData)
        (lr : LighthouseResult) (audits : List (String × Audit))
        (k : String) (audit : Audit),
        "requests" ∈ globals →
        fetch url st.api_key strategy = FetchOutcome.success data →
        data.lighthouseResult = some lr →
        lr.audits = some audits →
        k ∈ metric_keys →
        dictLookup audits k = some audit →
        audit.score = none ∨ audit.displayValue = none →
        (analyze_url globals fetch st url strategy).1 = none) := by
  refine ⟨fun audit h => get_metric_missing h, ?_, ?_⟩
  · intro audit s dv hs hd hn
    have h := get_metric_of_present hs hd
    rw [hn] at h
    simpa using h
  · intro globals fetch st url strategy data lr audits k audit hreq hfetch hlr
      haud hk hlook hbad
    cases hb : analyze_body data url strategy with
    | error msg => simp [analyze_url, try_analyze, hreq, hfetch, hb]
    | ok r =>
      exfalso
      obtain ⟨lr2, hlr2, audits2, haud2, categories, hcat, performance, hperf2, s2, hs2,
        a1, ha1, m1, hm1, a2, ha2, m2, hm2, a3, ha3, m3, hm3, a4, ha4, m4, hm4,
        a5, ha5, m5, hm5, a6, ha6, m6, hm6, opps, hopps, hr⟩ := analyze_body_eq_ok hb
      rw [hlr] at hlr2
      injection hlr2 with e
      subst e
      rw [haud] at haud2
      injection haud2 with e2
      subst e2
      simp only [metric_keys, List.mem_cons, List.not_mem_nil, or_false] at hk
      rcases hk with rfl | rfl | rfl | rfl | rfl | rfl
      · exact metric_conflict hlook ha1 hm1 hbad
      · exact metric_conflict hlook ha2 hm2 hbad
      · exact metric_conflict hlook ha3 hm3 hbad
      · exact metric_conflict hlook ha4 hm4 hbad
      · exact metric_conflict hlook ha5 hm5 hbad
      · exact metric_conflict hlook ha6 hm6 hbad

/-- C10 witness: a no-`score` audit makes `_get_metric` raise; a
no-`numericValue` audit yields value 0; and a response whose
`first-contentful-paint` audit lacks `score` makes the whole concrete
analysis return `None`. -/
theorem C10_metric_fields_not_uniform_witness :
    (∃ msg, get_metric exNoScoreAudit = Except.error msg) ∧
    get_metric exNoNumericAudit =
      Except.ok { score := 1 / 2, value := 0, displayValue := "50 ms" } ∧
    (analyze_url ["requests"] (fun _ _ _ => FetchOutcome.success exBadData)
      { api_key := some "k", consoleLines := [] } "https://example.com" "desktop").1
      = none :=
  ⟨C10_metric_fields_not_uniform.1 exNoScoreAudit (Or.inl rfl),
   C10_metric_fields_not_uniform.2.1 exNoNumericAudit (1 / 2) "50 ms" rfl rfl rfl,
   C10_metric_fields_not_uniform.2.2 ["requests"]
     (fun _ _ _ => FetchOutcome.success exBadData)
     { api_key := some "k", consoleLines := [] } "https://example.com" "desktop"
     exBadData _ exBadAudits "first-contentful-paint" exNoScoreAudit
     (List.mem_singleton.mpr rfl) rfl rfl rfl (by decide) rfl (Or.inl rfl)⟩
